import Mathlib

/-!
Shallow embedding of a micro-benchmarking harness (src/bench.c) and a small
string-repetition utility (src/repeat.c).

The benchmark repeatedly forks a child, execs the target command, waits for
it, measures the elapsed monotonic time, and folds each run into running
statistics (min/max/sum/run count/fail count) until a wall-clock budget is
exhausted.  The OS-dependent parts (fork, waitpid, the monotonic clock) are
modelled by a scripted environment: each loop iteration is driven by a
`RunEvent` recording whether fork failed, whether waitpid failed with a
non-EINTR error, how the child terminated (WIFEXITED / WEXITSTATUS), and the
two clock readings taken by run_once.  Durations are rationals standing for
the real-valued seconds of the C doubles.
-/

/-- One scripted interaction of run_once with the operating system:
whether fork fails, whether waitpid fails with an error other than EINTR
(EINTR is retried transparently and hence invisible), how the child
terminated (`exited` = WIFEXITED, `exitCode` = WEXITSTATUS), and the two
monotonic clock readings t0 (before fork) and t1 (after the child is
reaped). -/
structure RunEvent where
  forkFails : Bool
  waitFails : Bool
  exited : Bool
  exitCode : Nat
  t0 : ℚ
  t1 : ℚ
deriving Repr, DecidableEq

/-- run_once from src/bench.c: runs the command once.  Returns the C return
code (0 success, 1 child failed, -1 fork/wait system error) paired with the
value written through secs_out (`none` when run_once returns before reaching
the line that writes *secs_out, which happens exactly on the -1 paths). -/
def run_once (e : RunEvent) : Int × Option ℚ :=
  if e.forkFails then (-1, none)
  else if e.waitFails then (-1, none)
  else if e.exited ∧ e.exitCode = 0 then (0, some (e.t1 - e.t0))
  else (1, some (e.t1 - e.t0))

/-- The return code of run_once for an event. -/
def rcOf (e : RunEvent) : Int := (run_once e).1

/-- The value of the caller's local `secs` after `run_once(&secs)`:
`secs` is initialized to 0.0 and overwritten only when run_once writes
through secs_out. -/
def secsOf (e : RunEvent) : ℚ := ((run_once e).2).getD 0

/-- The statistics accumulator of main in src/bench.c:
min_s, max_s, sum_s over measured runs, the run counter and the
failed-run counter. -/
structure Stats where
  min_s : ℚ
  max_s : ℚ
  sum_s : ℚ
  runs : Nat
  fails : Nat
deriving Repr, DecidableEq

/-- Initial accumulator state (bench.c lines 161-163):
`double min_s = 0.0, max_s = 0.0, sum_s = 0.0; long runs = 0, fails = 0;`. -/
def initStats : Stats := ⟨0, 0, 0, 0, 0⟩

/-- One statistics update of the measurement loop (bench.c lines 174-186):
initialize min/max from the first run, otherwise take pointwise min/max;
add the duration into the sum; count the run; count a failure when the
return code of run_once is non-zero (1 or -1). -/
def foldRun (s : Stats) (secs : ℚ) (rc : Int) : Stats :=
  let s1 :=
    if s.runs = 0 then { s with min_s := secs, max_s := secs }
    else
      { s with
        min_s := if secs < s.min_s then secs else s.min_s,
        max_s := if s.max_s < secs then secs else s.max_s }
  { s1 with
    sum_s := s1.sum_s + secs,
    runs := s1.runs + 1,
    fails := if rc ≠ 0 then s1.fails + 1 else s1.fails }

/-- One iteration of the timed loop as scripted by the environment: the
monotonic clock reading observed at the budget check at the top of the loop,
and the run event driving the subsequent run_once call. -/
structure Iter where
  checkNow : ℚ
  event : RunEvent
deriving Repr, DecidableEq

/-- The timed measurement loop of main (bench.c lines 165-187): before each
iteration compute `elapsed = now - total_start` and stop when
`elapsed >= duration`; otherwise run the command once and fold the outcome
into the statistics.  The scripted trace `iters` supplies the clock reading
of each check and the event of each run; an exhausted trace models the point
at which the real loop would next observe an expired budget. -/
def timedLoop (total_start duration : ℚ) : Stats → List Iter → Stats
  | s, [] => s
  | s, it :: rest =>
    if it.checkNow - total_start ≥ duration then s
    else timedLoop total_start duration
      (foldRun s (secsOf it.event) (rcOf it.event)) rest

/-- The warmup loop of main (bench.c lines 152-155): call run_once `w`
times, discarding both the return code and the duration.  The list of
discarded results is returned only so that the number of run_once
invocations made by the phase is observable. -/
def warmupLoop (env : Nat → RunEvent) : Nat → List (Int × Option ℚ)
  | 0 => []
  | n + 1 => warmupLoop env n ++ [run_once (env n)]

/-- The final report printed by main (bench.c lines 193-196): min/avg/max
(printed as 0.0 when no run completed), the total elapsed time of the timed
window, the run and failure counters, and the warmup count. -/
structure Report where
  minOut : ℚ
  avgOut : ℚ
  maxOut : ℚ
  total : ℚ
  runsOut : Nat
  failsOut : Nat
  warmupsOut : Nat
deriving Repr, DecidableEq

/-- Build the report from the final statistics (bench.c lines 189-196):
`avg_s = (runs > 0) ? (sum_s / runs) : 0.0` and each of min/avg/max is
replaced by 0.0 when runs is zero. -/
def mkReport (warmups : Nat) (s : Stats) (total_elapsed : ℚ) : Report :=
  let avg_s : ℚ := if 0 < s.runs then s.sum_s / s.runs else 0
  { minOut := if s.runs ≠ 0 then s.min_s else 0
    avgOut := if s.runs ≠ 0 then avg_s else 0
    maxOut := if s.runs ≠ 0 then s.max_s else 0
    total := total_elapsed
    runsOut := s.runs
    failsOut := s.fails
    warmupsOut := warmups }

/-- The -w validation of main (bench.c lines 118-122): a supplied warmup
count is rejected when negative. -/
def badWarmup : Option Int → Bool
  | some w => w < 0
  | none => false

/-- The -d validation of main (bench.c lines 126-130): a supplied duration
is rejected when non-positive. -/
def badDuration : Option ℚ → Bool
  | some d => d ≤ 0
  | none => false

/-- Startup configuration handling of main (bench.c lines 105-148):
defaults warmups = 0 and duration = 5.0, validation of the supplied -w and
-d values, and the requirement that a command follows the options.  Returns
`none` on any validation failure (the program prints an error and exits
with EXIT_FAILURE before spawning anything), otherwise the validated
warmup count and duration. -/
def checkConfig (wOpt : Option Int) (dOpt : Option ℚ) (hasCmd : Bool) :
    Option (Nat × ℚ) :=
  if badWarmup wOpt then none
  else if badDuration dOpt then none
  else if ¬ hasCmd then none
  else some ((wOpt.getD 0).toNat, dOpt.getD 5)

/-- Observable result of one program execution: how many run_once calls the
warmup phase made, the final statistics and report of the timed phase
(`none` when configuration validation failed and no measurement ran), and
the process exit status. -/
structure BenchResult where
  warmupCalls : Nat
  stats : Option Stats
  report : Option Report
  exitStatus : Nat
deriving Repr, DecidableEq

/-- main from src/bench.c over a scripted environment: validate the
configuration; on failure exit with EXIT_FAILURE having spawned nothing;
otherwise run the warmup phase (results discarded), run the timed loop from
the zeroed accumulator over the scripted trace, build the report with
`total_elapsed = endNow - total_start`, and exit non-zero exactly when
fails > 0. -/
def benchMain (wOpt : Option Int) (dOpt : Option ℚ) (hasCmd : Bool)
    (env : Nat → RunEvent) (total_start : ℚ) (iters : List Iter)
    (endNow : ℚ) : BenchResult :=
  match checkConfig wOpt dOpt hasCmd with
  | none => { warmupCalls := 0, stats := none, report := none, exitStatus := 1 }
  | some (warmups, duration) =>
    let discarded := warmupLoop env warmups
    let s := timedLoop total_start duration initStats iters
    { warmupCalls := discarded.length
      stats := some s
      report := some (mkReport warmups s (endNow - total_start))
      exitStatus := if 0 < s.fails then 1 else 0 }

/-- The print loop of src/repeat.c (lines 33-40): `for (i = 0; i < repeats;
i++)` print the message character by character followed by a newline unless
-n was given.  A signed non-positive bound makes the loop body run zero
times, so the Nat recursion is over `repeats.toNat` at the call site. -/
def printLoop (msg : String) (no_newline : Bool) : Nat → String
  | 0 => ""
  | n + 1 => printLoop msg no_newline n ++ (msg ++ if no_newline then "" else "\n")

/-- main from src/repeat.c: repeats defaults to 1 and is replaced by the
-r value (unvalidated), no_newline is set by -n; without a message argument
the program prints an error to stderr and returns 1 with nothing on stdout;
otherwise it prints the message `repeats` times and returns 0.  The result
is the exit status paired with the text written to stdout. -/
def repeatMain (rOpt : Option Int) (no_newline : Bool) (msgOpt : Option String) :
    Nat × String :=
  let repeats : Int := rOpt.getD 1
  match msgOpt with
  | none => (1, "")
  | some msg => (0, printLoop msg no_newline repeats.toNat)

/-- Invariant of the statistics accumulator as reachable from initStats:
either no run has been folded yet and every field is still zero, or at
least one run has been folded and min_s * runs ≤ sum_s ≤ max_s * runs with
min_s ≤ max_s. -/
def StatsInv (s : Stats) : Prop :=
  (s.runs = 0 ∧ s.min_s = 0 ∧ s.max_s = 0 ∧ s.sum_s = 0) ∨
  (0 < s.runs ∧ s.min_s ≤ s.max_s ∧
    s.min_s * (s.runs : ℚ) ≤ s.sum_s ∧ s.sum_s ≤ s.max_s * (s.runs : ℚ))

/-! ### Helper lemmas about the statistics fold and the loops -/

theorem foldRun_runs (s : Stats) (secs : ℚ) (rc : Int) :
    (foldRun s secs rc).runs = s.runs + 1 := by
  unfold foldRun; split <;> rfl

theorem foldRun_sum (s : Stats) (secs : ℚ) (rc : Int) :
    (foldRun s secs rc).sum_s = s.sum_s + secs := by
  unfold foldRun; split <;> rfl

theorem foldRun_fails (s : Stats) (secs : ℚ) (rc : Int) :
    (foldRun s secs rc).fails = if rc ≠ 0 then s.fails + 1 else s.fails := by
  unfold foldRun; split <;> rfl

theorem foldRun_min (s : Stats) (secs : ℚ) (rc : Int) :
    (foldRun s secs rc).min_s =
      if s.runs = 0 then secs else if secs < s.min_s then secs else s.min_s := by
  unfold foldRun; split <;> rfl

theorem foldRun_max (s : Stats) (secs : ℚ) (rc : Int) :
    (foldRun s secs rc).max_s =
      if s.runs = 0 then secs else if s.max_s < secs then secs else s.max_s := by
  unfold foldRun; split <;> rfl

theorem foldRun_min_le (s : Stats) (secs : ℚ) (rc : Int) :
    (foldRun s secs rc).min_s ≤ secs := by
  rw [foldRun_min]; split
  · exact le_refl _
  · split
    · exact le_refl _
    · exact le_of_not_lt (by assumption)

theorem foldRun_le_max (s : Stats) (secs : ℚ) (rc : Int) :
    secs ≤ (foldRun s secs rc).max_s := by
  rw [foldRun_max]; split
  · exact le_refl _
  · split
    · exact le_refl _
    · exact le_of_not_lt (by assumption)

theorem warmupLoop_length (env : Nat → RunEvent) (n : Nat) :
    (warmupLoop env n).length = n := by
  induction n with
  | zero => rfl
  | succ k ih => simp [warmupLoop, ih]

theorem initStats_StatsInv : StatsInv initStats :=
  Or.inl ⟨rfl, rfl, rfl, rfl⟩

theorem foldRun_StatsInv (s : Stats) (secs : ℚ) (rc : Int) (h : StatsInv s) :
    StatsInv (foldRun s secs rc) := by
  rcases h with ⟨h0, hmin, hmax, hsum⟩ | ⟨hpos, hmm, hlo, hhi⟩
  · right
    rw [foldRun_runs, foldRun_sum, foldRun_min, foldRun_max, h0, hsum]
    norm_num
  · right
    have hne : s.runs ≠ 0 := Nat.pos_iff_ne_zero.mp hpos
    rw [foldRun_runs, foldRun_sum, foldRun_min, foldRun_max]
    simp only [hne, if_false]
    have hcast : (0:ℚ) ≤ (s.runs : ℚ) := by positivity
    have hm1 : (if secs < s.min_s then secs else s.min_s) ≤ s.min_s := by
      split
      · exact le_of_lt (by assumption)
      · exact le_refl _
    have hm2 : (if secs < s.min_s then secs else s.min_s) ≤ secs := by
      split
      · exact le_refl _
      · exact le_of_not_lt (by assumption)
    have hM1 : s.max_s ≤ (if s.max_s < secs then secs else s.max_s) := by
      split
      · exact le_of_lt (by assumption)
      · exact le_refl _
    have hM2 : secs ≤ (if s.max_s < secs then secs else s.max_s) := by
      split
      · exact le_refl _
      · exact le_of_not_lt (by assumption)
    have hmulm := mul_le_mul_of_nonneg_right hm1 hcast
    have hmulM := mul_le_mul_of_nonneg_right hM1 hcast
    refine ⟨Nat.succ_pos _, le_trans hm1 (le_trans hmm hM1), ?_, ?_⟩
    · push_cast
      nlinarith [hmulm, hlo, hm2]
    · push_cast
      nlinarith [hmulM, hhi, hM2]

theorem timedLoop_StatsInv (total_start duration : ℚ) (s : Stats)
    (iters : List Iter) (h : StatsInv s) :
    StatsInv (timedLoop total_start duration s iters) := by
  induction iters generalizing s with
  | nil => simpa [timedLoop] using h
  | cons it rest ih =>
    by_cases hb : it.checkNow - total_start ≥ duration
    · simpa [timedLoop, hb] using h
    · simpa [timedLoop, hb] using ih _ (foldRun_StatsInv _ _ _ h)

theorem foldRun_fails_le_runs (s : Stats) (secs : ℚ) (rc : Int)
    (h : s.fails ≤ s.runs) :
    (foldRun s secs rc).fails ≤ (foldRun s secs rc).runs := by
  rw [foldRun_runs, foldRun_fails]; split <;> omega

theorem timedLoop_fails_le_runs (total_start duration : ℚ) (s : Stats)
    (iters : List Iter) (h : s.fails ≤ s.runs) :
    (timedLoop total_start duration s iters).fails ≤
      (timedLoop total_start duration s iters).runs := by
  induction iters generalizing s with
  | nil => simpa [timedLoop] using h
  | cons it rest ih =>
    by_cases hb : it.checkNow - total_start ≥ duration
    · simpa [timedLoop, hb] using h
    · simpa [timedLoop, hb] using ih _ (foldRun_fails_le_runs _ _ _ h)

theorem printLoop_eq_replicate (msg : String) (nn : Bool) (n : Nat) :
    printLoop msg nn n =
      String.join (List.replicate n (msg ++ if nn then "" else "\n")) := by
  induction n with
  | zero => rfl
  | succ k ih =>
    rw [printLoop, ih, List.replicate_succ']
    simp [String.join, List.foldl_append]

/-! ### Theorems for the claims -/

/-- C1: for every completed run (no fork or waitpid system error), run_once
returns 0 — the Success outcome — exactly when the child terminated normally
(WIFEXITED) with exit code 0; a non-zero exit code or termination by a
signal both yield the same return value 1 (FailureExit), so the caller sees
them identically as a failed run. -/
theorem run_once_success_iff (e : RunEvent)
    (hf : e.forkFails = false) (hw : e.waitFails = false) :
    ((run_once e).1 = 0 ↔ (e.exited = true ∧ e.exitCode = 0)) ∧
    ((run_once e).1 = 0 ∨ (run_once e).1 = 1) := by
  obtain ⟨ff, wf, ex, ec, a, b⟩ := e
  cases hf; cases hw
  cases ex <;> by_cases hec : ec = 0 <;> simp [run_once, hec]

/-- Witness for C1: a normal exit-0 run is classified 0 (Success), checked
by applying the theorem at a signal-terminated event as well. -/
theorem run_once_success_iff_witness :
    (((run_once ⟨false, false, true, 0, 0, 1⟩).1 = 0 ↔
        ((RunEvent.mk false false true 0 0 1).exited = true ∧
          (RunEvent.mk false false true 0 0 1).exitCode = 0)) ∧
      ((run_once ⟨false, false, true, 0, 0, 1⟩).1 = 0 ∨
        (run_once ⟨false, false, true, 0, 0, 1⟩).1 = 1)) ∧
    (((run_once ⟨false, false, false, 9, 0, 1⟩).1 = 0 ↔
        ((RunEvent.mk false false false 9 0 1).exited = true ∧
          (RunEvent.mk false false false 9 0 1).exitCode = 0)) ∧
      ((run_once ⟨false, false, false, 9, 0, 1⟩).1 = 0 ∨
        (run_once ⟨false, false, false, 9, 0, 1⟩).1 = 1)) :=
  ⟨run_once_success_iff ⟨false, false, true, 0, 0, 1⟩ rfl rfl,
   run_once_success_iff ⟨false, false, false, 9, 0, 1⟩ rfl rfl⟩

/-- C3: the timed loop checks the elapsed time against the budget before
each iteration and never mid-run: the runs counted are exactly the maximal
prefix of iterations whose budget check passed (no run starts once
`elapsed >= duration`), and each such run contributes its entire duration
to the sum — a run that began before the deadline is counted in full even
if it overruns the budget. -/
theorem timedLoop_budget_boundary (total_start duration : ℚ) (s : Stats)
    (iters : List Iter) :
    (timedLoop total_start duration s iters).runs =
      s.runs + (iters.takeWhile
        (fun it => decide (it.checkNow - total_start < duration))).length ∧
    (timedLoop total_start duration s iters).sum_s =
      s.sum_s + ((iters.takeWhile
        (fun it => decide (it.checkNow - total_start < duration))).map
          (fun it => secsOf it.event)).sum := by
  induction iters generalizing s with
  | nil => simp [timedLoop]
  | cons it rest ih =>
    by_cases hb : it.checkNow - total_start ≥ duration
    · have hnb : ¬ (it.checkNow - total_start < duration) := not_lt.2 hb
      simp [timedLoop, hb, List.takeWhile_cons, hnb]
    · have hlt : it.checkNow - total_start < duration := lt_of_not_ge hb
      have hrec := ih (foldRun s (secsOf it.event) (rcOf it.event))
      constructor
      · rw [show timedLoop total_start duration s (it :: rest) =
            timedLoop total_start duration
              (foldRun s (secsOf it.event) (rcOf it.event)) rest by
            simp [timedLoop, hb]]
        rw [hrec.1, foldRun_runs]
        simp [List.takeWhile_cons, hlt]
        omega
      · rw [show timedLoop total_start duration s (it :: rest) =
            timedLoop total_start duration
              (foldRun s (secsOf it.event) (rcOf it.event)) rest by
            simp [timedLoop, hb]]
        rw [hrec.2, foldRun_sum]
        simp [List.takeWhile_cons, hlt]
        ring

/-- C8: min and max are initialized from the first measured run, not from a
sentinel: the accumulator starts with run count 0, and folding a run into
any accumulator whose run count is 0 sets both min and max to that run's
recorded duration, regardless of whatever values (such as the 0.0 the
fields were declared with) min and max held before. -/
theorem first_run_initializes_min_max (s : Stats) (secs : ℚ) (rc : Int)
    (h : s.runs = 0) :
    initStats.runs = 0 ∧
    (foldRun s secs rc).min_s = secs ∧
    (foldRun s secs rc).max_s = secs := by
  rw [foldRun_min, foldRun_max, h]
  exact ⟨rfl, rfl, rfl⟩

/-- Witness for C8: starting from sentinel values min = 37, max = 42, the
first measured run of duration 100 overwrites both with 100. -/
theorem first_run_initializes_min_max_witness :
    initStats.runs = 0 ∧
    (foldRun ⟨37, 42, 0, 0, 0⟩ 100 0).min_s = 100 ∧
    (foldRun ⟨37, 42, 0, 0, 0⟩ 100 0).max_s = 100 :=
  first_run_initializes_min_max ⟨37, 42, 0, 0, 0⟩ 100 0 rfl

/-- C9: startup validation — a supplied warmup count < 0, a supplied
duration <= 0, or a missing command makes the program exit with non-zero
status having made no run_once call (no child spawned) and produced no
statistics and no report. -/
theorem config_error_no_spawn (wOpt : Option Int) (dOpt : Option ℚ)
    (hasCmd : Bool) (env : Nat → RunEvent) (total_start : ℚ)
    (iters : List Iter) (endNow : ℚ)
    (h : badWarmup wOpt = true ∨ badDuration dOpt = true ∨ hasCmd = false) :
    (benchMain wOpt dOpt hasCmd env total_start iters endNow).exitStatus ≠ 0 ∧
    (benchMain wOpt dOpt hasCmd env total_start iters endNow).warmupCalls = 0 ∧
    (benchMain wOpt dOpt hasCmd env total_start iters endNow).stats = none ∧
    (benchMain wOpt dOpt hasCmd env total_start iters endNow).report = none := by
  have hc : checkConfig wOpt dOpt hasCmd = none := by
    rcases h with h | h | h <;> simp [checkConfig, h]
  simp [benchMain, hc]

/-- Witness for C9: duration 0 supplied — the program exits non-zero with
no spawn and no statistics. -/
theorem config_error_no_spawn_witness :
    (badWarmup none = true ∨ badDuration (some 0) = true ∨ true = false) ∧
    ((benchMain none (some 0) true (fun _ => ⟨false, false, true, 0, 0, 1⟩)
        0 [] 0).exitStatus ≠ 0 ∧
      (benchMain none (some 0) true (fun _ => ⟨false, false, true, 0, 0, 1⟩)
        0 [] 0).warmupCalls = 0 ∧
      (benchMain none (some 0) true (fun _ => ⟨false, false, true, 0, 0, 1⟩)
        0 [] 0).stats = none ∧
      (benchMain none (some 0) true (fun _ => ⟨false, false, true, 0, 0, 1⟩)
        0 [] 0).report = none) :=
  ⟨Or.inr (Or.inl (by norm_num [badDuration])),
   config_error_no_spawn none (some 0) true _ 0 [] 0
     (Or.inr (Or.inl (by norm_num [badDuration])))⟩

/-- C10: with a message argument, repeat.c writes exactly max(r, 0) copies
of the message (r.toNat copies, and the cast of r.toNat equals max r 0),
each followed by a newline unless -n is given, and exits 0 — in particular
r <= 0 prints nothing and still exits 0; with -r absent it prints one copy;
with no message argument it exits 1 and writes nothing to stdout. -/
theorem repeat_main_spec (r : Int) (nn : Bool) (msg : String) :
    repeatMain (some r) nn (some msg) =
      (0, String.join (List.replicate r.toNat
        (msg ++ if nn then "" else "\n"))) ∧
    ((r.toNat : Int) = max r 0) ∧
    repeatMain none nn (some msg) =
      (0, String.join (List.replicate 1 (msg ++ if nn then "" else "\n"))) ∧
    repeatMain (some r) nn none = (1, "") := by
  refine ⟨?_, Int.toNat_eq_max r, ?_, rfl⟩
  · simp [repeatMain, printLoop_eq_replicate]
  · simp [repeatMain, printLoop_eq_replicate]

/-- C2: for a completed timed phase with run count n > 0, the reported
statistics satisfy min <= avg <= max where avg = sum / n: the report
exposes exactly the accumulated min_s, sum_s / runs and max_s, and the
accumulator produced by folding each run's duration into the pointwise
minimum, pointwise maximum and sum keeps the average between them. -/
theorem timed_phase_min_avg_max (w : Nat) (t total_start duration : ℚ)
    (iters : List Iter)
    (h : 0 < (timedLoop total_start duration initStats iters).runs) :
    (mkReport w (timedLoop total_start duration initStats iters) t).minOut =
      (timedLoop total_start duration initStats iters).min_s ∧
    (mkReport w (timedLoop total_start duration initStats iters) t).avgOut =
      (timedLoop total_start duration initStats iters).sum_s /
        ((timedLoop total_start duration initStats iters).runs : ℚ) ∧
    (mkReport w (timedLoop total_start duration initStats iters) t).maxOut =
      (timedLoop total_start duration initStats iters).max_s ∧
    (timedLoop total_start duration initStats iters).min_s ≤
      (timedLoop total_start duration initStats iters).sum_s /
        ((timedLoop total_start duration initStats iters).runs : ℚ) ∧
    (timedLoop total_start duration initStats iters).sum_s /
        ((timedLoop total_start duration initStats iters).runs : ℚ) ≤
      (timedLoop total_start duration initStats iters).max_s := by
  have hinv := timedLoop_StatsInv total_start duration initStats iters
    initStats_StatsInv
  set s := timedLoop total_start duration initStats iters with hs
  rcases hinv with ⟨h0, _⟩ | ⟨_, hmm, hlo, hhi⟩
  · exact absurd h (by omega)
  · have hne : s.runs ≠ 0 := Nat.pos_iff_ne_zero.mp h
    have hpos : (0:ℚ) < (s.runs : ℚ) := by exact_mod_cast h
    refine ⟨?_, ?_, ?_, ?_, ?_⟩
    · simp [mkReport, hne]
    · simp [mkReport, hne, h]
    · simp [mkReport, hne]
    · rw [le_div_iff₀ hpos]; exact hlo
    · rw [div_le_iff₀ hpos]; exact hhi

/-- Witness for C2: a single successful 2-second run inside a 10-second
budget; the report shows min = avg = max = 2 and the inequalities hold. -/
theorem timed_phase_min_avg_max_witness :
    0 < (timedLoop 0 10 initStats [⟨0, ⟨false, false, true, 0, 0, 2⟩⟩]).runs ∧
    ((mkReport 0 (timedLoop 0 10 initStats
        [⟨0, ⟨false, false, true, 0, 0, 2⟩⟩]) 3).minOut =
      (timedLoop 0 10 initStats [⟨0, ⟨false, false, true, 0, 0, 2⟩⟩]).min_s ∧
    (mkReport 0 (timedLoop 0 10 initStats
        [⟨0, ⟨false, false, true, 0, 0, 2⟩⟩]) 3).avgOut =
      (timedLoop 0 10 initStats [⟨0, ⟨false, false, true, 0, 0, 2⟩⟩]).sum_s /
        ((timedLoop 0 10 initStats
          [⟨0, ⟨false, false, true, 0, 0, 2⟩⟩]).runs : ℚ) ∧
    (mkReport 0 (timedLoop 0 10 initStats
        [⟨0, ⟨false, false, true, 0, 0, 2⟩⟩]) 3).maxOut =
      (timedLoop 0 10 initStats [⟨0, ⟨false, false, true, 0, 0, 2⟩⟩]).max_s ∧
    (timedLoop 0 10 initStats [⟨0, ⟨false, false, true, 0, 0, 2⟩⟩]).min_s ≤
      (timedLoop 0 10 initStats [⟨0, ⟨false, false, true, 0, 0, 2⟩⟩]).sum_s /
        ((timedLoop 0 10 initStats
          [⟨0, ⟨false, false, true, 0, 0, 2⟩⟩]).runs : ℚ) ∧
    (timedLoop 0 10 initStats [⟨0, ⟨false, false, true, 0, 0, 2⟩⟩]).sum_s /
        ((timedLoop 0 10 initStats
          [⟨0, ⟨false, false, true, 0, 0, 2⟩⟩]).runs : ℚ) ≤
      (timedLoop 0 10 initStats [⟨0, ⟨false, false, true, 0, 0, 2⟩⟩]).max_s) :=
  ⟨by norm_num [timedLoop, foldRun, secsOf, rcOf, run_once, initStats],
   timed_phase_min_avg_max 0 3 0 10 [⟨0, ⟨false, false, true, 0, 0, 2⟩⟩]
     (by norm_num [timedLoop, foldRun, secsOf, rcOf, run_once, initStats])⟩

/-- C4: with a valid configuration whose warmup count is w, the warmup
phase makes exactly w run_once calls before the timed window, and the
statistics of the timed phase are computed from the timed trace alone —
the warmup runs' outcomes (the scripted environment) change neither the
statistics, nor the report, nor the exit status. -/
theorem warmup_frame (wOpt : Option Int) (dOpt : Option ℚ) (hasCmd : Bool)
    (env env2 : Nat → RunEvent) (total_start : ℚ) (iters : List Iter)
    (endNow : ℚ) (w : Nat) (duration : ℚ)
    (hc : checkConfig wOpt dOpt hasCmd = some (w, duration)) :
    (benchMain wOpt dOpt hasCmd env total_start iters endNow).warmupCalls = w ∧
    (benchMain wOpt dOpt hasCmd env total_start iters endNow).stats =
      some (timedLoop total_start duration initStats iters) ∧
    (benchMain wOpt dOpt hasCmd env total_start iters endNow).stats =
      (benchMain wOpt dOpt hasCmd env2 total_start iters endNow).stats ∧
    (benchMain wOpt dOpt hasCmd env total_start iters endNow).report =
      (benchMain wOpt dOpt hasCmd env2 total_start iters endNow).report ∧
    (benchMain wOpt dOpt hasCmd env total_start iters endNow).exitStatus =
      (benchMain wOpt dOpt hasCmd env2 total_start iters endNow).exitStatus := by
  simp [benchMain, hc, warmupLoop_length]

/-- Witness for C4: warmup count 2, duration 1, two environments whose
scripted warmup runs differ (success vs signal), one timed iteration. -/
theorem warmup_frame_witness :
    checkConfig (some 2) (some 1) true = some (2, 1) ∧
    ((benchMain (some 2) (some 1) true (fun _ => ⟨false, false, true, 0, 0, 1⟩)
        0 [⟨0, ⟨false, false, true, 0, 0, 2⟩⟩] 2).warmupCalls = 2 ∧
    (benchMain (some 2) (some 1) true (fun _ => ⟨false, false, true, 0, 0, 1⟩)
        0 [⟨0, ⟨false, false, true, 0, 0, 2⟩⟩] 2).stats =
      some (timedLoop 0 1 initStats [⟨0, ⟨false, false, true, 0, 0, 2⟩⟩]) ∧
    (benchMain (some 2) (some 1) true (fun _ => ⟨false, false, true, 0, 0, 1⟩)
        0 [⟨0, ⟨false, false, true, 0, 0, 2⟩⟩] 2).stats =
      (benchMain (some 2) (some 1) true (fun _ => ⟨false, false, false, 9, 0, 7⟩)
        0 [⟨0, ⟨false, false, true, 0, 0, 2⟩⟩] 2).stats ∧
    (benchMain (some 2) (some 1) true (fun _ => ⟨false, false, true, 0, 0, 1⟩)
        0 [⟨0, ⟨false, false, true, 0, 0, 2⟩⟩] 2).report =
      (benchMain (some 2) (some 1) true (fun _ => ⟨false, false, false, 9, 0, 7⟩)
        0 [⟨0, ⟨false, false, true, 0, 0, 2⟩⟩] 2).report ∧
    (benchMain (some 2) (some 1) true (fun _ => ⟨false, false, true, 0, 0, 1⟩)
        0 [⟨0, ⟨false, false, true, 0, 0, 2⟩⟩] 2).exitStatus =
      (benchMain (some 2) (some 1) true (fun _ => ⟨false, false, false, 9, 0, 7⟩)
        0 [⟨0, ⟨false, false, true, 0, 0, 2⟩⟩] 2).exitStatus) :=
  ⟨by norm_num [checkConfig, badWarmup, badDuration]; rfl,
   warmup_frame (some 2) (some 1) true _ _ 0
     [⟨0, ⟨false, false, true, 0, 0, 2⟩⟩] 2 2 1
     (by norm_num [checkConfig, badWarmup, badDuration]; rfl)⟩

/-- C5: with a valid configuration and a command, the program exit status
is 0 exactly when no measured run of the timed phase failed (fail count 0),
and a run whose spawn failed at the infrastructure level (fork error,
return code -1) is itself counted as a failed run by the fold. -/
theorem exit_status_iff_no_failed_run (wOpt : Option Int) (dOpt : Option ℚ)
    (hasCmd : Bool) (env : Nat → RunEvent) (total_start : ℚ)
    (iters : List Iter) (endNow : ℚ) (w : Nat) (duration : ℚ)
    (s : Stats) (e : RunEvent)
    (hc : checkConfig wOpt dOpt hasCmd = some (w, duration))
    (hf : e.forkFails = true) :
    ((benchMain wOpt dOpt hasCmd env total_start iters endNow).exitStatus = 0 ↔
      (timedLoop total_start duration initStats iters).fails = 0) ∧
    rcOf e = -1 ∧
    (foldRun s (secsOf e) (rcOf e)).fails = s.fails + 1 := by
  have hrc : rcOf e = -1 := by simp [rcOf, run_once, hf]
  refine ⟨?_, hrc, ?_⟩
  · simp only [benchMain, hc]
    by_cases hfl : 0 < (timedLoop total_start duration initStats iters).fails
    · simp [hfl]; omega
    · simp [hfl]; omega
  · rw [foldRun_fails, hrc]
    norm_num

/-- Witness for C5: default configuration, one timed iteration whose fork
fails; the exit-status equivalence and the failure counting hold there. -/
theorem exit_status_iff_no_failed_run_witness :
    checkConfig none none true = some (0, 5) ∧
    (RunEvent.mk true false true 0 0 1).forkFails = true ∧
    (((benchMain none none true (fun _ => ⟨false, false, true, 0, 0, 1⟩)
        0 [⟨0, ⟨true, false, true, 0, 0, 1⟩⟩] 1).exitStatus = 0 ↔
      (timedLoop 0 5 initStats [⟨0, ⟨true, false, true, 0, 0, 1⟩⟩]).fails = 0) ∧
    rcOf ⟨true, false, true, 0, 0, 1⟩ = -1 ∧
    (foldRun initStats (secsOf ⟨true, false, true, 0, 0, 1⟩)
        (rcOf ⟨true, false, true, 0, 0, 1⟩)).fails = initStats.fails + 1) :=
  ⟨rfl, rfl,
   exit_status_iff_no_failed_run none none true _ 0
     [⟨0, ⟨true, false, true, 0, 0, 1⟩⟩] 1 0 5 initStats
     ⟨true, false, true, 0, 0, 1⟩ rfl rfl⟩

/-- C7: the accumulator invariant run_count >= fail_count >= 0 holds after
every fold step: the fail counter starts at 0, each fold increments the run
counter by exactly one and the fail counter by at most one (and only
together with the run counter), preservation holds step by step, and every
state the timed loop reaches from the initial accumulator satisfies
fails <= runs (fails is a natural number, hence >= 0). -/
theorem stats_fail_run_invariant (s : Stats) (secs : ℚ) (rc : Int)
    (total_start duration : ℚ) (iters : List Iter)
    (h : s.fails ≤ s.runs) :
    initStats.fails = 0 ∧
    (foldRun s secs rc).runs = s.runs + 1 ∧
    s.fails ≤ (foldRun s secs rc).fails ∧
    (foldRun s secs rc).fails ≤ s.fails + 1 ∧
    (foldRun s secs rc).fails ≤ (foldRun s secs rc).runs ∧
    (timedLoop total_start duration initStats iters).fails ≤
      (timedLoop total_start duration initStats iters).runs := by
  refine ⟨rfl, foldRun_runs _ _ _, ?_, ?_,
    foldRun_fails_le_runs _ _ _ h,
    timedLoop_fails_le_runs _ _ initStats _ (by simp [initStats])⟩
  · rw [foldRun_fails]; split <;> omega
  · rw [foldRun_fails]; split <;> omega

/-- Witness for C7 at a concrete accumulator (2 runs, 1 failure), a failed
run of duration 3, and a one-iteration trace. -/
theorem stats_fail_run_invariant_witness :
    (Stats.mk 1 2 3 2 1).fails ≤ (Stats.mk 1 2 3 2 1).runs ∧
    (initStats.fails = 0 ∧
    (foldRun ⟨1, 2, 3, 2, 1⟩ 3 1).runs = (Stats.mk 1 2 3 2 1).runs + 1 ∧
    (Stats.mk 1 2 3 2 1).fails ≤ (foldRun ⟨1, 2, 3, 2, 1⟩ 3 1).fails ∧
    (foldRun ⟨1, 2, 3, 2, 1⟩ 3 1).fails ≤ (Stats.mk 1 2 3 2 1).fails + 1 ∧
    (foldRun ⟨1, 2, 3, 2, 1⟩ 3 1).fails ≤ (foldRun ⟨1, 2, 3, 2, 1⟩ 3 1).runs ∧
    (timedLoop 0 5 initStats [⟨0, ⟨false, false, true, 0, 0, 1⟩⟩]).fails ≤
      (timedLoop 0 5 initStats [⟨0, ⟨false, false, true, 0, 0, 1⟩⟩]).runs) :=
  ⟨by norm_num,
   stats_fail_run_invariant ⟨1, 2, 3, 2, 1⟩ 3 1 0 5
     [⟨0, ⟨false, false, true, 0, 0, 1⟩⟩] (by norm_num)⟩

/-- C6 counterexample: a timed run whose waitpid fails with a non-EINTR
error (a FailureSystem outcome) over a window where the clock advanced from
t0 = 0 to t1 = 5 is counted as a run, yet contributes 0 to the sum rather
than the 5 seconds the run actually took: run_once returns -1 before
writing *secs_out, so the caller folds its initialized 0.0. -/
theorem system_failure_contributes_zero :
    rcOf ⟨false, true, true, 0, 0, 5⟩ = -1 ∧
    (RunEvent.mk false true true 0 0 5).t1 -
      (RunEvent.mk false true true 0 0 5).t0 = 5 ∧
    (timedLoop 0 10 initStats [⟨0, ⟨false, true, true, 0, 0, 5⟩⟩]).runs = 1 ∧
    (timedLoop 0 10 initStats [⟨0, ⟨false, true, true, 0, 0, 5⟩⟩]).sum_s = 0 ∧
    (timedLoop 0 10 initStats
      [⟨0, ⟨false, true, true, 0, 0, 5⟩⟩]).sum_s ≠ 5 := by
  norm_num [timedLoop, foldRun, secsOf, rcOf, run_once, initStats]

/-- C6 (amended): every run counted in the timed phase increments
run_count, and fail_count is incremented exactly when the return code is
non-zero (outcome not Success); the duration folded into min, max and sum
is the measured t1 - t0 for Success and FailureExit outcomes, but 0 — the
caller's initialized value — for FailureSystem outcomes (fork or wait
error, return code -1), since run_once returns before writing the duration
on those paths; the folded duration always lies between the updated min
and max. -/
theorem counted_run_contribution (s : Stats) (e : RunEvent) :
    secsOf e = (if e.forkFails ∨ e.waitFails then (0:ℚ) else e.t1 - e.t0) ∧
    (rcOf e = -1 ↔ (e.forkFails = true ∨ e.waitFails = true)) ∧
    (foldRun s (secsOf e) (rcOf e)).runs = s.runs + 1 ∧
    (foldRun s (secsOf e) (rcOf e)).sum_s = s.sum_s + secsOf e ∧
    (foldRun s (secsOf e) (rcOf e)).min_s ≤ secsOf e ∧
    secsOf e ≤ (foldRun s (secsOf e) (rcOf e)).max_s ∧
    (foldRun s (secsOf e) (rcOf e)).fails =
      (if rcOf e ≠ 0 then s.fails + 1 else s.fails) := by
  refine ⟨?_, ?_, foldRun_runs _ _ _, foldRun_sum _ _ _,
    foldRun_min_le _ _ _, foldRun_le_max _ _ _, foldRun_fails _ _ _⟩
  · obtain ⟨ff, wf, ex, ec, a, b⟩ := e
    cases ff <;> cases wf <;> cases ex <;>
      by_cases hec : ec = 0 <;> simp [secsOf, run_once, hec]
  · obtain ⟨ff, wf, ex, ec, a, b⟩ := e
    cases ff <;> cases wf <;> cases ex <;>
      by_cases hec : ec = 0 <;> simp [rcOf, run_once, hec]
